import Mathlib

/-
  Verification of the datelib calendar-date library.

  The definitions below are a shallow embedding of the Python sources:
  constants.py, utils.py, day_of_week.py and dates.py. Python integers are
  modelled as Int, raised exceptions (InvalidDateError, AssertionError,
  TypeError, KeyError) as Except Unit, and the while-loops of
  _subtract_days / _add_days as fuel-indexed recursions where a result of
  none models a computation that has not finished within the given number
  of loop iterations (so a result of none for every fuel is divergence).
-/

namespace Datelib

/-! ### constants.py -/

def NUM_DAYS_IN_WEEK : Int := 7
def NUM_MONTHS_IN_YEAR : Int := 12
def NUM_DAYS_IN_NON_LEAP_YEAR : Int := 365
def NUM_DAYS_IN_LEAP_YEAR : Int := 366

def DAY_COUNTS_IN_NON_LEAP_YEAR_BY_MONTH : List Int :=
  [31, 28, 31, 30, 31, 30, 31, 31, 30, 31, 30, 31]

def DAY_COUNTS_IN_LEAP_YEAR_BY_MONTH : List Int :=
  [31, 29, 31, 30, 31, 30, 31, 31, 30, 31, 30, 31]

def YEARS_HAVING_JANUARY_1ST_AS_SATURDAY : List Int :=
  [28, 248, 524, 744, 980, 1228, 1448, 1684, 1916, 2000, 2084, 2276, 2400, 2676, 2952]

/-- Mapping DAY_NUMBER_TO_NAME_MAPPER from constants.py (1=Monday .. 7=Sunday);
out-of-range keys would be a KeyError in Python and are mapped to the empty
string here (unreachable on the paths we verify). -/
def dayNumberToName (n : Int) : String :=
  match n with
  | 1 => "Monday"
  | 2 => "Tuesday"
  | 3 => "Wednesday"
  | 4 => "Thursday"
  | 5 => "Friday"
  | 6 => "Saturday"
  | 7 => "Sunday"
  | _ => ""

/-! ### utils.py -/

/-- Embedding of utils.is_leap_year.  Python % on a positive modulus agrees
with Int.emod. -/
def is_leap_year (year : Int) : Bool :=
  if year % 4 ≠ 0 then false
  else if year % 100 ≠ 0 then true
  else if year % 400 = 0 then true else false

/-- Embedding of utils.get_days_count_in_year. -/
def get_days_count_in_year (year : Int) : Int :=
  if is_leap_year year then NUM_DAYS_IN_LEAP_YEAR else NUM_DAYS_IN_NON_LEAP_YEAR

/-- Embedding of utils.get_days_count_between_months.  The two asserts are
modelled as errors; the Python slice lst[start_month - 1 : end_month] is the
drop/take below.  Membership of 2 in range(start_month, end_month + 1) is
start_month ≤ 2 ∧ 2 ≤ end_month. -/
def get_days_count_between_months (year start_month end_month : Int) : Except Unit Int :=
  if ¬ ((1 ≤ start_month ∧ start_month ≤ 12) ∧ (1 ≤ end_month ∧ end_month ≤ 12)) then .error ()
  else if ¬ (start_month ≤ end_month) then .error ()
  else
    let includes_february := start_month ≤ 2 ∧ 2 ≤ end_month
    let leap := includes_february ∧ is_leap_year year
    let table := if leap then DAY_COUNTS_IN_LEAP_YEAR_BY_MONTH else DAY_COUNTS_IN_NON_LEAP_YEAR_BY_MONTH
    .ok (((table.drop (start_month - 1).toNat).take (end_month - (start_month - 1)).toNat).sum)

/-- Embedding of utils.get_days_in_month. -/
def get_days_in_month (year month : Int) : Except Unit Int :=
  get_days_count_between_months year month month

/-- Embedding of utils.get_days_remaining_in_month. -/
def get_days_remaining_in_month (year month day : Int) : Except Unit Int :=
  (get_days_in_month year month).map (fun n => n - day)

/-- Embedding of utils.get_days_per_month_mapper: the month-number to
day-count dictionary for one year, with its keys in ascending order. -/
def get_days_per_month_mapper (year : Int) : List (Int × Int) :=
  [(1, 31), (2, if is_leap_year year then 29 else 28), (3, 31), (4, 30), (5, 31),
   (6, 30), (7, 31), (8, 31), (9, 30), (10, 31), (11, 30), (12, 31)]

/-- Lookup in the dictionary produced by
utils.get_days_per_month_mapper_for_multiple_years for years lo..hi:
dict.get(year, dict()).get(month, None) yields none when the year is outside
the range or the month is not a key.  The per-year dictionary is the BASE_MAPPER
of the source with February adjusted for leap years, which coincides with
get_days_per_month_mapper. -/
def multi_year_mapper_lookup (lo hi year month : Int) : Option Int :=
  if lo ≤ year ∧ year ≤ hi then (get_days_per_month_mapper year).lookup month else none

/-! ### day_of_week.py -/

/-- Scanning loop of utils.argmin: keep the index of the first strict
minimum seen so far. -/
def argminAux : List Int → Nat → Int → Nat → Nat
  | [], lowIdx, _, _ => lowIdx
  | x :: rest, lowIdx, lowVal, idx =>
      if x < lowVal then argminAux rest idx x (idx + 1)
      else argminAux rest lowIdx lowVal (idx + 1)

/-- Embedding of utils.argmin (an empty list would be an IndexError in the
source; it is mapped to 0 here and never reached). -/
def argmin : List Int → Nat
  | [] => 0
  | x :: rest => argminAux rest 0 x 1

/-- Reference-year selection of day_of_week._get_reference_date_details: the
curated year closest to the given year, first minimum on ties.  The assert
that the chosen year is a leap year always passes on this list. -/
def reference_year (year : Int) : Int :=
  YEARS_HAVING_JANUARY_1ST_AS_SATURDAY.getD
    (argmin (YEARS_HAVING_JANUARY_1ST_AS_SATURDAY.map (fun r => |year - r|))) 0

/-- Forward leap-counting loop of _get_day_of_week_on_january_1st: visit
j, j+4, ... for the given number of iterations, counting leap years other
than the target year. -/
def count_leaps_fwd_aux (year : Int) : Int → Nat → Int
  | _, 0 => 0
  | j, n + 1 =>
      (if is_leap_year j ∧ j ≠ year then 1 else 0) + count_leaps_fwd_aux year (j + 4) n

/-- Python for-loop over range(reference_year, year + 1, 4): the iteration
count is the length of that range. -/
def count_leaps_fwd (ref year : Int) : Int :=
  count_leaps_fwd_aux year ref ((year + 1 - ref + 3) / 4).toNat

/-- Backward leap-counting loop: visit j, j-4, ..., counting leap years
other than the reference year. -/
def count_leaps_bwd_aux (ref : Int) : Int → Nat → Int
  | _, 0 => 0
  | j, n + 1 =>
      (if is_leap_year j ∧ j ≠ ref then 1 else 0) + count_leaps_bwd_aux ref (j - 4) n

/-- Python for-loop over range(reference_year, year - 1, -4). -/
def count_leaps_bwd (ref year : Int) : Int :=
  count_leaps_bwd_aux ref ref ((ref - (year - 1) + 3) / 4).toNat

/-- Final ordinal step of _get_day_of_week_on_january_1st: add the offset to
the reference ordinal 6 (Saturday), reduce modulo 7 and map 0 to 7. -/
def dow_from_away (away : Int) : Int :=
  if (6 + away) % 7 = 0 then 7 else (6 + away) % 7

/-- Embedding of _get_day_of_week_on_january_1st (the returned ordinal;
num_years_between is int(abs(year - reference_year))). -/
def jan1_dow (year : Int) : Int :=
  if year = reference_year year then 6
  else if year > reference_year year then
    dow_from_away
      ((|year - reference_year year| + count_leaps_fwd (reference_year year) year) % 7)
  else
    dow_from_away
      (7 - ((|year - reference_year year| + count_leaps_bwd (reference_year year) year) % 7))

/-- Dictionary _MONTH_TO_FIRST_SAME_DAY_MAPPER of get_day_of_week (a key
outside 1..12 would be a KeyError; mapped to 0 here, unreachable for valid
months). -/
def month_to_first_same_day (m : Int) : Int :=
  match m with
  | 1 => 1 | 2 => 5 | 3 => 5 | 4 => 2 | 5 => 7 | 6 => 4
  | 7 => 2 | 8 => 6 | 9 => 3 | 10 => 1 | 11 => 5 | 12 => 3
  | _ => 0

/-- Ordinal computed by day_of_week.get_day_of_week.  Python % 7 is already
nonnegative, so the subsequent if-negative adjustment never fires but is kept
faithfully. -/
def get_day_of_week_number (year month day : Int) : Int :=
  let num_days_away := (day - month_to_first_same_day month) % 7
  let num_days_away2 := if num_days_away < 0 then num_days_away + 7 else num_days_away
  let days_difference := jan1_dow year + num_days_away2 +
    (if is_leap_year year ∧ month > 2 then 1 else 0)
  if days_difference % 7 = 0 then 7 else days_difference % 7

/-- Embedding of day_of_week.get_day_of_week. -/
def get_day_of_week (year month day : Int) : String :=
  dayNumberToName (get_day_of_week_number year month day)

/-! ### The Date entity (dates.py): data and validation -/

/-- The triple of fields (self._year, self._month, self._day) of a Date
object.  Validity is a separate predicate: Python objects can temporarily
hold an invalid triple (e.g. after a failed setter assignment). -/
structure Date where
  year : Int
  month : Int
  day : Int
deriving DecidableEq, Repr

/-- Embedding of Date._validate_date (the value checks; the isinstance type
check of the source is outside an Int-valued embedding). -/
def validate_date (year month day : Int) : Except Unit Unit :=
  if year ≤ 0 then .error ()
  else if ¬ (1 ≤ month ∧ month ≤ 12) then .error ()
  else if (month ∈ ([1, 3, 5, 7, 8, 10, 12] : List Int)) ∧ ¬ (1 ≤ day ∧ day ≤ 31) then .error ()
  else if (month ∈ ([4, 6, 9, 11] : List Int)) ∧ ¬ (1 ≤ day ∧ day ≤ 30) then .error ()
  else if month = 2 ∧ ((is_leap_year year ∧ ¬ (1 ≤ day ∧ day ≤ 29)) ∨
                       (¬ is_leap_year year ∧ ¬ (1 ≤ day ∧ day ≤ 28))) then .error ()
  else .ok ()

/-- Embedding of the Date constructor: stores the fields then validates. -/
def mkDate (year month day : Int) : Except Unit Date :=
  (validate_date year month day).map (fun _ => ⟨year, month, day⟩)

/-! ### Specification-side definitions (from the words of the spec) -/

/-- Day count of a month per section 3 of the spec: 28/29 for February by
leap year, 30 for April, June, September, November, 31 otherwise. -/
def specDaysInMonth (year month : Int) : Int :=
  if month = 2 then (if year % 4 = 0 ∧ (year % 100 ≠ 0 ∨ year % 400 = 0) then 29 else 28)
  else if month = 4 ∨ month = 6 ∨ month = 9 ∨ month = 11 then 30
  else 31

/-- Validity of a (year, month, day) triple per the spec: year ≥ 1, month in
1..12, day in 1..days-in-month. -/
def specValidTriple (year month day : Int) : Prop :=
  1 ≤ year ∧ 1 ≤ month ∧ month ≤ 12 ∧ 1 ≤ day ∧ day ≤ specDaysInMonth year month

instance (year month day : Int) : Decidable (specValidTriple year month day) := by
  unfold specValidTriple; infer_instance

/-- Validity of a Date value per the spec. -/
def specValid (d : Date) : Prop := specValidTriple d.year d.month d.day

instance (d : Date) : Decidable (specValid d) := by
  unfold specValid; infer_instance

/-! ### Comparison operators of Date (dates.py lines 67-97) -/

/-- Embedding of Date.__eq__. -/
def dateEqP (a b : Date) : Prop := a.year = b.year ∧ a.month = b.month ∧ a.day = b.day

instance (a b : Date) : Decidable (dateEqP a b) := by unfold dateEqP; infer_instance

/-- Embedding of Date.__gt__: any([year >, year == and (month > or day >)]). -/
def dateGt (a b : Date) : Prop :=
  a.year > b.year ∨ (a.year = b.year ∧ (a.month > b.month ∨ a.day > b.day))

instance (a b : Date) : Decidable (dateGt a b) := by unfold dateGt; infer_instance

/-- Embedding of Date.__ge__: independent per-field comparison. -/
def dateGe (a b : Date) : Prop :=
  a.year ≥ b.year ∧ a.month ≥ b.month ∧ a.day ≥ b.day

instance (a b : Date) : Decidable (dateGe a b) := by unfold dateGe; infer_instance

/-- Embedding of Date.__lt__: any([year <, year == and (month < or day <)]). -/
def dateLt (a b : Date) : Prop :=
  a.year < b.year ∨ (a.year = b.year ∧ (a.month < b.month ∨ a.day < b.day))

instance (a b : Date) : Decidable (dateLt a b) := by unfold dateLt; infer_instance

/-- Embedding of Date.__le__: independent per-field comparison. -/
def dateLe (a b : Date) : Prop :=
  a.year ≤ b.year ∧ a.month ≤ b.month ∧ a.day ≤ b.day

instance (a b : Date) : Decidable (dateLe a b) := by unfold dateLe; infer_instance

/-! ### Day counting and difference (dates.py lines 184-417) -/

/-- Embedding of the Date.days_since_start_of_year property. -/
def days_since_start_of_year (d : Date) : Except Unit Int :=
  if d.month = 1 then .ok d.day
  else (get_days_count_between_months d.year 1 (d.month - 1)).map (fun n => n + d.day)

/-- Loop of the Date.days_till_end_of_year property, over the reversed items
of the per-month mapper: add whole months until the current month is reached,
then add its remaining days and stop. -/
def days_till_end_loop (month day : Int) : List (Int × Int) → Int
  | [] => 0
  | (mn, len) :: rest =>
      if mn = month then len - day else len + days_till_end_loop month day rest

/-- Embedding of the Date.days_till_end_of_year property. -/
def days_till_end_of_year (d : Date) : Int :=
  days_till_end_loop d.month d.day (get_days_per_month_mapper d.year).reverse

/-- Embedding of Date._get_years_between_dates.  The assert is an error; the
while loop produces the ascending list small.year .. big.year (nonempty since
the assert guarantees small.year ≤ big.year). -/
def get_years_between_dates (small big : Date) : Except Unit (List Int) :=
  if ¬ dateLt small big then .error ()
  else if small.year = big.year then .ok [small.year]
  else .ok ((List.range (big.year - small.year + 1).toNat).map (fun i => small.year + i))

/-- Embedding of Date._difference_between_dates_in_same_year.  The asserts
are errors.  Note the source reads the year from self (not from small/big)
when calling the day-count utilities. -/
def diff_same_year (self small big : Date) : Except Unit Int :=
  if ¬ dateLt small big then .error ()
  else if ¬ (small.year = big.year) then .error ()
  else if small.month = big.month then .ok (big.day - small.day)
  else if small.month + 1 = big.month then
    match get_days_remaining_in_month self.year small.month small.day with
    | .error e => .error e
    | .ok r => .ok (r + big.day)
  else
    match get_days_remaining_in_month self.year small.month small.day with
    | .error e => .error e
    | .ok r =>
      match get_days_count_between_months self.year (small.month + 1) (big.month - 1) with
      | .error e => .error e
      | .ok mid => .ok (r + mid + big.day)

/-- Embedding of Date._difference_between_dates_in_different_years.  The
starred tuple unpacking of the source raises when the year list has fewer
than two elements (unreachable under its asserts). -/
def diff_different_years (self small big : Date) : Except Unit Int :=
  if ¬ dateLt small big then .error ()
  else if small.year = big.year then .error ()
  else
    match get_years_between_dates small big with
    | .error e => .error e
    | .ok [] => .error ()
    | .ok [_] => .error ()
    | .ok (_ :: rest) =>
      let years_in_between := rest.dropLast
      match days_since_start_of_year big with
      | .error e => .error e
      | .ok since =>
        .ok (days_till_end_of_year small + (years_in_between.map get_days_count_in_year).sum + since)

/-- Absolute-difference dispatch of Date.difference: same-year or
different-years computation, with self the receiver of the call. -/
def difference_abs_part (self small big : Date) : Except Unit Int :=
  if small.year = big.year then diff_same_year self small big
  else diff_different_years self small big

/-- Embedding of Date.difference.  The copy() calls re-validate an already
valid receiver and argument and return equal field values, so they are the
identity on the values compared here. -/
def difference (a b : Date) : Except Unit Int :=
  if dateEqP a b then .ok 0
  else
    (difference_abs_part a (if dateLt a b then a else b)
        (if dateLt a b then b else a)).map
      (fun v => if dateLt a b then v * (-1) else v)

/-! ### Reference definition for brute-force day counting (spec section 8) -/

/-- Successor date under the proleptic Gregorian calendar, written from the
spec rules (day counts per month, leap-year rule): the reference one-day
increment of the brute-force day-by-day count. -/
def specNextDay (d : Date) : Date :=
  if d.day < specDaysInMonth d.year d.month then ⟨d.year, d.month, d.day + 1⟩
  else if d.month < 12 then ⟨d.year, d.month + 1, 1⟩
  else ⟨d.year + 1, 1, 1⟩

/-- Number of leap years in the interval [1, y) under the Gregorian rule,
for the reference day-number computation (valid for y ≥ 1). -/
def leapsBefore (y : Int) : Int := (y - 1) / 4 - (y - 1) / 100 + (y - 1) / 400

/-- Cumulative day count of the months strictly before m in a non-leap
year. -/
def cumDaysBeforeMonth (m : Int) : Int :=
  match m with
  | 1 => 0 | 2 => 31 | 3 => 59 | 4 => 90 | 5 => 120 | 6 => 151
  | 7 => 181 | 8 => 212 | 9 => 243 | 10 => 273 | 11 => 304 | 12 => 334
  | _ => 0

/-- Reference day number (rata die): the 1-based index of the day y-m-d in
the proleptic Gregorian calendar, counting from 0001-01-01 = 1.  The
independent anchor-and-modulo-7 weekday reference is built on it. -/
def rataDie (y m d : Int) : Int :=
  365 * (y - 1) + leapsBefore y + cumDaysBeforeMonth m +
    (if (y % 4 = 0 ∧ (y % 100 ≠ 0 ∨ y % 400 = 0)) ∧ 2 < m then 1 else 0) + d

/-- Reference weekday ordinal (1 = Monday .. 7 = Sunday): day number modulo
7, anchored so that day 1 (0001-01-01) is a Monday - equivalently, counting
days from the anchor 2000-01-01, a Saturday, modulo 7. -/
def refDayOfWeekNumber (y m d : Int) : Int := (rataDie y m d - 1) % 7 + 1

/-- Reference weekday name. -/
def refDayOfWeek (y m d : Int) : String := dayNumberToName (refDayOfWeekNumber y m d)

/-! ### Date arithmetic (dates.py lines 222-354 and 419-435) -/

/-- Embedding of Date._increment_year_and_month. -/
def increment_year_and_month (year month : Int) : Int × Int :=
  if month = 12 then (year + 1, 1) else (year, month + 1)

/-- Embedding of Date._decrement_year_and_month. -/
def decrement_year_and_month (year month : Int) : Int × Int :=
  if month = 1 then (year - 1, 12) else (year, month - 1)

/-- Embedding of Date._subtract_years.  The assert is an error. -/
def date_subtract_years (d : Date) (years : Int) : Except Unit Date :=
  if years < 0 then .error ()
  else if d.month = 2 ∧ d.day = 29 then
    if is_leap_year (d.year - years) then mkDate (d.year - years) 2 29
    else mkDate (d.year - years) 2 28
  else mkDate (d.year - years) d.month d.day

/-- Dictionary _mapper of Date._subtract_months, mapping a non-positive
month number to its wrapped-around month in the previous year. -/
def month_underflow_mapper : List (Int × Int) :=
  [(0, 12), (-1, 11), (-2, 10), (-3, 9), (-4, 8), (-5, 7), (-6, 6), (-7, 5),
   (-8, 4), (-9, 3), (-10, 2), (-11, 1)]

/-- Embedding of Date._subtract_months: divmod by 12, year shift, then month
shift with the underflow dictionary (a key below -11 would be a KeyError,
modelled as an error; it is unreachable since months % 12 is at most 11). -/
def date_subtract_months (d : Date) (months : Int) : Except Unit Date :=
  if months < 0 then .error ()
  else
    match date_subtract_years d (months / 12) with
    | .error e => .error e
    | .ok dn =>
      if dn.month - months % 12 ≤ 0 then
        match month_underflow_mapper.lookup (dn.month - months % 12) with
        | none => .error ()
        | some m => mkDate (dn.year - 1) m dn.day
      else mkDate dn.year (dn.month - months % 12) dn.day

/-- Loop of Date._subtract_days.  Each constructor application is a
re-validating Date construction.  In the source, when the remaining days
equal the month length neither loop branch fires and the while-loop repeats
with unchanged state; when the mapper lookup misses, a comparison of int and
None raises a TypeError (days nonzero) or Date receives day=None (days zero),
both modelled as errors.  Fuel counts loop iterations; none means the loop
has not finished. -/
def subtract_days_loop (lo hi : Int) : Nat → Int → Int → Int → Option (Except Unit Date)
  | 0, _, _, _ => none
  | fuel + 1, days, cy, cm =>
    match multi_year_mapper_lookup lo hi cy cm with
    | none => some (.error ())
    | some t =>
        if days = 0 then some (mkDate cy cm t)
        else if days > t then
          subtract_days_loop lo hi fuel (days - t)
            (decrement_year_and_month cy cm).1 (decrement_year_and_month cy cm).2
        else if days < t then some (mkDate cy cm (t - days))
        else subtract_days_loop lo hi fuel days cy cm

/-- Embedding of Date._subtract_days.  The assert is an error; the mapper is
built for the years self.year - days // 366 - 1 .. self.year; the first
mapper lookup of the source (before the day comparison) is dead code. -/
def date_subtract_days (d : Date) (days : Int) (fuel : Nat) : Option (Except Unit Date) :=
  if days < 0 then some (.error ())
  else if days < d.day then some (mkDate d.year d.month (d.day - days))
  else
    subtract_days_loop (d.year - days / 366 - 1) d.year fuel (days - d.day)
      (decrement_year_and_month d.year d.month).1 (decrement_year_and_month d.year d.month).2

/-- Embedding of Date._add_years.  The assert is an error. -/
def date_add_years (d : Date) (years : Int) : Except Unit Date :=
  if years < 0 then .error ()
  else if d.month = 2 ∧ d.day = 29 then
    if is_leap_year (d.year + years) then mkDate (d.year + years) 2 29
    else mkDate (d.year + years) 3 1
  else mkDate (d.year + years) d.month d.day

/-- Embedding of Date._add_months: divmod by 12, year shift, then month
shift with modulo-12 wrap-around and conditional year carry. -/
def date_add_months (d : Date) (months : Int) : Except Unit Date :=
  if months < 0 then .error ()
  else
    match date_add_years d (months / 12) with
    | .error e => .error e
    | .ok dn =>
      mkDate (if dn.month + months % 12 > 12 then dn.year + 1 else dn.year)
        (if (dn.month + months % 12) % 12 = 0 then 12 else (dn.month + months % 12) % 12)
        dn.day

/-- Loop of Date._add_days: subtract whole months while the remaining days
exceed the month length, then land on the remaining day count. -/
def add_days_loop (lo hi : Int) : Nat → Int → Int → Int → Option (Except Unit Date)
  | 0, _, _, _ => none
  | fuel + 1, days, cy, cm =>
    match multi_year_mapper_lookup lo hi cy cm with
    | none => some (.error ())
    | some t =>
        if days > t then
          add_days_loop lo hi fuel (days - t)
            (increment_year_and_month cy cm).1 (increment_year_and_month cy cm).2
        else some (mkDate cy cm days)

/-- Embedding of Date._add_days.  The mapper is built for the years
self.year .. self.year + days // 366 + 1; the first lookup is used to
compute the days remaining in the current month. -/
def date_add_days (d : Date) (days : Int) (fuel : Nat) : Option (Except Unit Date) :=
  if days < 0 then some (.error ())
  else
    match multi_year_mapper_lookup d.year (d.year + days / 366 + 1) d.year d.month with
    | none => some (.error ())
    | some t =>
      if days ≤ t - d.day then some (mkDate d.year d.month (d.day + days))
      else
        add_days_loop d.year (d.year + days / 366 + 1) fuel (days - (t - d.day))
          (increment_year_and_month d.year d.month).1 (increment_year_and_month d.year d.month).2

/-- Embedding of Date.add: years first, then months, then days, each on the
result of the previous step. -/
def date_add (d : Date) (years months days : Int) (fuel : Nat) : Option (Except Unit Date) :=
  match date_add_years d years with
  | .error e => some (.error e)
  | .ok d1 =>
    match date_add_months d1 months with
    | .error e => some (.error e)
    | .ok d2 => date_add_days d2 days fuel

/-- Embedding of Date.subtract: years first, then months, then days. -/
def date_subtract (d : Date) (years months days : Int) (fuel : Nat) : Option (Except Unit Date) :=
  match date_subtract_years d years with
  | .error e => some (.error e)
  | .ok d1 =>
    match date_subtract_months d1 months with
    | .error e => some (.error e)
    | .ok d2 => date_subtract_days d2 days fuel

/-! ### Setters and the method-call state of the receiver -/

/-- Embedding of the year setter: the field is assigned first, then the whole
triple is validated; the returned pair is (outcome, state of the receiver
after the call). -/
def set_year (s : Date) (v : Int) : Except Unit Unit × Date :=
  (validate_date v s.month s.day, ⟨v, s.month, s.day⟩)

/-- Embedding of the month setter (assign, then validate). -/
def set_month (s : Date) (v : Int) : Except Unit Unit × Date :=
  (validate_date s.year v s.day, ⟨s.year, v, s.day⟩)

/-- Embedding of the day setter (assign, then validate). -/
def set_day (s : Date) (v : Int) : Except Unit Unit × Date :=
  (validate_date s.year s.month v, ⟨s.year, s.month, v⟩)

/-- Method-call view of Date.add: the pair of the returned value and the
receiver state after the call.  Neither Date.add nor any helper it calls
(_add_years, _add_months, _add_days) contains an assignment to a field of
self - they only read self and construct new Dates - so the post-state of
the receiver is its pre-state. -/
def add_method (self : Date) (years months days : Int) (fuel : Nat) :
    Option (Except Unit Date) × Date :=
  (date_add self years months days fuel, self)

/-- Method-call view of Date.subtract; as for add, the source assigns no
field of self. -/
def subtract_method (self : Date) (years months days : Int) (fuel : Nat) :
    Option (Except Unit Date) × Date :=
  (date_subtract self years months days fuel, self)

/-! ### Helper lemmas about validation -/

theorem is_leap_year_iff (y : Int) :
    is_leap_year y = true ↔ (y % 4 = 0 ∧ (y % 100 ≠ 0 ∨ y % 400 = 0)) := by
  unfold is_leap_year
  split_ifs with h1 h2 h3 <;> simp <;> omega

theorem is_leap_year_true (y : Int) (h : y % 4 = 0 ∧ (y % 100 ≠ 0 ∨ y % 400 = 0)) :
    is_leap_year y = true := (is_leap_year_iff y).mpr h

theorem is_leap_year_false (y : Int) (h : ¬ (y % 4 = 0 ∧ (y % 100 ≠ 0 ∨ y % 400 = 0))) :
    is_leap_year y = false := by
  rcases hlv : is_leap_year y with _ | _
  · rfl
  · exact absurd ((is_leap_year_iff y).mp hlv) h

/-- Characterisation of the validator against the spec-side validity
predicate. -/
theorem validate_date_eq (y m d : Int) :
    validate_date y m d = if specValidTriple y m d then .ok () else .error () := by
  unfold validate_date specValidTriple specDaysInMonth
  simp only [List.mem_cons, List.not_mem_nil, or_false]
  by_cases hP : y % 4 = 0 ∧ (y % 100 ≠ 0 ∨ y % 400 = 0)
  · simp only [is_leap_year_true y hP, if_pos hP]
    simp only [Bool.true_eq_false, Bool.false_eq_true, false_and, true_and, not_false_eq_true,
      false_or, or_false, and_true, eq_self_iff_true, not_true]
    split_ifs <;> first | rfl | (exfalso; omega)
  · simp only [is_leap_year_false y hP, if_neg hP]
    simp only [Bool.true_eq_false, Bool.false_eq_true, false_and, true_and, not_false_eq_true,
      false_or, or_false, and_true, eq_self_iff_true, not_true]
    split_ifs <;> first | rfl | (exfalso; omega)

/-- Characterisation of the constructor: it returns the stored triple
exactly on spec-valid inputs and fails otherwise. -/
theorem mkDate_eq (y m d : Int) :
    mkDate y m d = if specValidTriple y m d then .ok ⟨y, m, d⟩ else .error () := by
  unfold mkDate
  rw [validate_date_eq]
  split_ifs <;> rfl

theorem mkDate_ok_of_valid (y m d : Int) (h : specValidTriple y m d) :
    mkDate y m d = .ok ⟨y, m, d⟩ := by
  rw [mkDate_eq, if_pos h]

theorem mkDate_error_of_invalid (y m d : Int) (h : ¬ specValidTriple y m d) :
    mkDate y m d = .error () := by
  rw [mkDate_eq, if_neg h]

/-! ### Helper lemmas for the difference claims -/

theorem between_months_ok (y sm em : Int) (h1 : 1 ≤ sm) (h2 : sm ≤ 12) (h3 : 1 ≤ em)
    (h4 : em ≤ 12) (h5 : sm ≤ em) :
    ∃ v, get_days_count_between_months y sm em = .ok v := by
  unfold get_days_count_between_months
  rw [if_neg (by omega), if_neg (by omega)]
  exact ⟨_, rfl⟩

theorem diff_same_year_error_of_month_gt (self small big : Date)
    (h1 : 1 ≤ small.month) (h2 : small.month ≤ 12)
    (h : big.month < small.month) :
    diff_same_year self small big = .error () := by
  unfold diff_same_year
  have herr : get_days_count_between_months self.year (small.month + 1) (big.month - 1) =
      .error () := by
    unfold get_days_count_between_months
    split_ifs with k1 k2 <;> first | rfl | omega
  obtain ⟨v, hv⟩ := between_months_ok self.year small.month small.month h1 h2 h1 h2 le_rfl
  split_ifs with g1 g2 g3 g4 <;>
    first
    | rfl
    | omega
    | (exfalso; omega)
    | (unfold get_days_remaining_in_month get_days_in_month
       rw [hv, Except.map, herr])

theorem diff_same_year_self_irrel (s1 s2 small big : Date) (h : s1.year = s2.year) :
    diff_same_year s1 small big = diff_same_year s2 small big := by
  unfold diff_same_year; rw [h]

theorem diff_different_years_self_irrel (s1 s2 small big : Date) :
    diff_different_years s1 small big = diff_different_years s2 small big := rfl

theorem difference_self (a : Date) : difference a a = .ok 0 := by
  unfold difference
  rw [if_pos ⟨rfl, rfl, rfl⟩]

/-! ### Claim C5 -/

/-- C5: Date(year, month, day) construction succeeds exactly on triples with
year ≥ 1, month 1-12 and day within the month length (28/29 for February by
leap year, 30 for April/June/September/November, 31 otherwise), and raises
InvalidDateError for every other integer triple.  (The non-integer-field
clause of the claim concerns Python dynamic typing and is outside this
Int-valued embedding.) -/
theorem claim_C5_construction_validity (y m d : Int) :
    mkDate y m d = if specValidTriple y m d then .ok ⟨y, m, d⟩ else .error () :=
  mkDate_eq y m d

/-! ### Claim C8 -/

/-- C8: the non-strict operators are independent per-field comparisons, and
they are not consistent with the strict operators: there are valid dates a, b
with a > b but not a ≥ b. -/
theorem claim_C8_nonstrict_comparison :
    (∀ a b : Date, specValid a → specValid b →
      (dateGe a b ↔ (a.year ≥ b.year ∧ a.month ≥ b.month ∧ a.day ≥ b.day)) ∧
      (dateLe a b ↔ (a.year ≤ b.year ∧ a.month ≤ b.month ∧ a.day ≤ b.day))) ∧
    (∃ a b : Date, specValid a ∧ specValid b ∧ dateGt a b ∧ ¬ dateGe a b) := by
  constructor
  · exact fun a b _ _ => ⟨Iff.rfl, Iff.rfl⟩
  · exact ⟨⟨2021, 1, 5⟩, ⟨2020, 12, 1⟩, by decide, by decide, by decide, by decide⟩

/-- Witness for C8 at the concrete pair Date(2021,1,5), Date(2020,12,1). -/
theorem claim_C8_witness :
    dateGe ⟨2021, 1, 5⟩ ⟨2020, 12, 1⟩ ↔
      ((2021 : Int) ≥ 2020 ∧ (1 : Int) ≥ 12 ∧ (5 : Int) ≥ 1) :=
  (claim_C8_nonstrict_comparison.1 ⟨2021, 1, 5⟩ ⟨2020, 12, 1⟩ (by decide) (by decide)).1

/-! ### Claim C9 -/

set_option maxRecDepth 4000 in
/-- C9: Date(2014,8,1).difference(Date(2018,6,11)) is -1410, matching the
brute-force day-by-day reference count over the same span: iterating the
reference one-day successor 1410 times from 2014-08-01 reaches 2018-06-11. -/
theorem claim_C9_difference_value :
    difference ⟨2014, 8, 1⟩ ⟨2018, 6, 11⟩ = .ok (-1410) ∧
    Nat.iterate specNextDay 1410 ⟨2014, 8, 1⟩ = ⟨2018, 6, 11⟩ := by
  refine ⟨rfl, ?_⟩
  have h1 : Nat.iterate specNextDay 100 ⟨2014, 8, 1⟩ = ⟨2014, 11, 9⟩ := by decide
  have h2 : Nat.iterate specNextDay 100 ⟨2014, 11, 9⟩ = ⟨2015, 2, 17⟩ := by decide
  have h3 : Nat.iterate specNextDay 100 ⟨2015, 2, 17⟩ = ⟨2015, 5, 28⟩ := by decide
  have h4 : Nat.iterate specNextDay 100 ⟨2015, 5, 28⟩ = ⟨2015, 9, 5⟩ := by decide
  have h5 : Nat.iterate specNextDay 100 ⟨2015, 9, 5⟩ = ⟨2015, 12, 14⟩ := by decide
  have h6 : Nat.iterate specNextDay 100 ⟨2015, 12, 14⟩ = ⟨2016, 3, 23⟩ := by decide
  have h7 : Nat.iterate specNextDay 100 ⟨2016, 3, 23⟩ = ⟨2016, 7, 1⟩ := by decide
  have h8 : Nat.iterate specNextDay 100 ⟨2016, 7, 1⟩ = ⟨2016, 10, 9⟩ := by decide
  have h9 : Nat.iterate specNextDay 100 ⟨2016, 10, 9⟩ = ⟨2017, 1, 17⟩ := by decide
  have h10 : Nat.iterate specNextDay 100 ⟨2017, 1, 17⟩ = ⟨2017, 4, 27⟩ := by decide
  have h11 : Nat.iterate specNextDay 100 ⟨2017, 4, 27⟩ = ⟨2017, 8, 5⟩ := by decide
  have h12 : Nat.iterate specNextDay 100 ⟨2017, 8, 5⟩ = ⟨2017, 11, 13⟩ := by decide
  have h13 : Nat.iterate specNextDay 100 ⟨2017, 11, 13⟩ = ⟨2018, 2, 21⟩ := by decide
  have h14 : Nat.iterate specNextDay 100 ⟨2018, 2, 21⟩ = ⟨2018, 6, 1⟩ := by decide
  have h15 : Nat.iterate specNextDay 10 ⟨2018, 6, 1⟩ = ⟨2018, 6, 11⟩ := by decide
  rw [show (1410 : ℕ) = 1310 + 100 by norm_num, Function.iterate_add_apply, h1]
  rw [show (1310 : ℕ) = 1210 + 100 by norm_num, Function.iterate_add_apply, h2]
  rw [show (1210 : ℕ) = 1110 + 100 by norm_num, Function.iterate_add_apply, h3]
  rw [show (1110 : ℕ) = 1010 + 100 by norm_num, Function.iterate_add_apply, h4]
  rw [show (1010 : ℕ) = 910 + 100 by norm_num, Function.iterate_add_apply, h5]
  rw [show (910 : ℕ) = 810 + 100 by norm_num, Function.iterate_add_apply, h6]
  rw [show (810 : ℕ) = 710 + 100 by norm_num, Function.iterate_add_apply, h7]
  rw [show (710 : ℕ) = 610 + 100 by norm_num, Function.iterate_add_apply, h8]
  rw [show (610 : ℕ) = 510 + 100 by norm_num, Function.iterate_add_apply, h9]
  rw [show (510 : ℕ) = 410 + 100 by norm_num, Function.iterate_add_apply, h10]
  rw [show (410 : ℕ) = 310 + 100 by norm_num, Function.iterate_add_apply, h11]
  rw [show (310 : ℕ) = 210 + 100 by norm_num, Function.iterate_add_apply, h12]
  rw [show (210 : ℕ) = 110 + 100 by norm_num, Function.iterate_add_apply, h13]
  rw [show (110 : ℕ) = 10 + 100 by norm_num, Function.iterate_add_apply, h14]
  exact h15

/-! ### Claim C1 -/

theorem difference_abs_part_switch (a b small big : Date)
    (hsb : (small = a ∧ big = b) ∨ (small = b ∧ big = a)) :
    difference_abs_part a small big = difference_abs_part b small big := by
  unfold difference_abs_part
  by_cases hy : small.year = big.year
  · rw [if_pos hy, if_pos hy]
    apply diff_same_year_self_irrel
    rcases hsb with ⟨rfl, rfl⟩ | ⟨rfl, rfl⟩
    · exact hy
    · exact hy.symm
  · rw [if_neg hy, if_neg hy]
    exact diff_different_years_self_irrel a b small big

/-- C1 counterexample: for the valid pair Date(2020,3,20), Date(2020,5,10)
(same year, months and days ordered oppositely) one direction of difference
returns -51 while the other raises an assertion error inside
get_days_count_between_months, so difference does not always return and
antisymmetry fails as universally stated. -/
theorem claim_C1_counterexample :
    specValid ⟨2020, 3, 20⟩ ∧ specValid ⟨2020, 5, 10⟩ ∧
    difference ⟨2020, 3, 20⟩ ⟨2020, 5, 10⟩ = .ok (-51) ∧
    difference ⟨2020, 5, 10⟩ ⟨2020, 3, 20⟩ = .error () :=
  ⟨by decide, by decide, rfl, rfl⟩

/-- C1 amended: a.difference(a) is 0 for every Date, and difference is
antisymmetric on every pair of valid Dates for which both directions return
a value (for some valid pairs - same year with month and day ordered
oppositely - one direction raises instead of returning). -/
theorem claim_C1_amended_antisymmetry :
    (∀ a : Date, difference a a = .ok 0) ∧
    (∀ a b : Date, specValid a → specValid b → ∀ x z : Int,
      difference a b = .ok x → difference b a = .ok z → x = -z) := by
  constructor
  · exact difference_self
  · intro a b va vb x z hab hba
    obtain ⟨-, vam1, vam2, -, -⟩ := va
    obtain ⟨-, vbm1, vbm2, -, -⟩ := vb
    by_cases heq : dateEqP a b
    · unfold difference at hab hba
      rw [if_pos heq] at hab
      rw [if_pos ⟨heq.1.symm, heq.2.1.symm, heq.2.2.symm⟩] at hba
      injection hab with h1
      injection hba with h2
      omega
    · have heq2 : ¬ dateEqP b a := fun h => heq ⟨h.1.symm, h.2.1.symm, h.2.2.symm⟩
      unfold difference at hab hba
      rw [if_neg heq] at hab
      rw [if_neg heq2] at hba
      by_cases hlab : dateLt a b <;> by_cases hlba : dateLt b a
      · -- both strict comparisons hold: same year, month/day ordered
        -- oppositely, and at least one direction errors
        exfalso
        have hy : a.year = b.year := by unfold dateLt at hlab hlba; omega
        rcases lt_trichotomy a.month b.month with hm | hm | hm
        · rw [if_pos hlba, if_pos hlba] at hba
          have herr : difference_abs_part b b a = .error () := by
            unfold difference_abs_part
            rw [if_pos hy.symm]
            exact diff_same_year_error_of_month_gt b b a vbm1 vbm2 hm
          rw [herr] at hba
          simp [Except.map] at hba
        · unfold dateLt at hlab hlba; omega
        · rw [if_pos hlab, if_pos hlab] at hab
          have herr : difference_abs_part a a b = .error () := by
            unfold difference_abs_part
            rw [if_pos hy]
            exact diff_same_year_error_of_month_gt a a b vam1 vam2 hm
          rw [herr] at hab
          simp [Except.map] at hab
      · -- a < b only: both calls order the pair as (a, b)
        rw [if_pos hlab, if_pos hlab] at hab
        rw [if_neg hlba, if_neg hlba] at hba
        rw [difference_abs_part_switch b a a b (Or.inr ⟨rfl, rfl⟩)] at hba
        rcases hS : difference_abs_part a a b with e | v
        · rw [hS] at hab
          simp [Except.map] at hab
        · rw [hS] at hab hba
          simp only [Except.map] at hab hba
          rw [if_pos hlab] at hab
          rw [if_neg hlba] at hba
          injection hab with h1
          injection hba with h2
          omega
      · -- b < a only: both calls order the pair as (b, a)
        rw [if_neg hlab, if_neg hlab] at hab
        rw [if_pos hlba, if_pos hlba] at hba
        rw [difference_abs_part_switch a b b a (Or.inr ⟨rfl, rfl⟩)] at hab
        rcases hS : difference_abs_part b b a with e | v
        · rw [hS] at hba
          simp [Except.map] at hba
        · rw [hS] at hab hba
          simp only [Except.map] at hab hba
          rw [if_neg hlab] at hab
          rw [if_pos hlba] at hba
          injection hab with h1
          injection hba with h2
          omega
      · -- neither strict comparison holds and the dates differ: impossible
        exfalso
        unfold dateEqP at heq
        unfold dateLt at hlab hlba
        omega

/-- Witness for the amended C1 at the valid pair Date(2020,1,1),
Date(2020,1,2), where both directions return. -/
theorem claim_C1_amended_witness :
    specValid ⟨2020, 1, 1⟩ ∧ specValid ⟨2020, 1, 2⟩ ∧
    difference ⟨2020, 1, 1⟩ ⟨2020, 1, 2⟩ = .ok (-1) ∧
    difference ⟨2020, 1, 2⟩ ⟨2020, 1, 1⟩ = .ok 1 ∧ (-1 : Int) = -(1 : Int) :=
  ⟨by decide, by decide, rfl, rfl,
    claim_C1_amended_antisymmetry.2 ⟨2020, 1, 1⟩ ⟨2020, 1, 2⟩ (by decide) (by decide)
      (-1) 1 rfl rfl⟩

/-! ### Helper lemmas for the add/subtract claims -/

theorem leap_of_valid_feb29 (y : Int) (h : specValidTriple y 2 29) :
    is_leap_year y = true := by
  apply is_leap_year_true
  by_contra hq
  have h5 := h.2.2.2.2
  unfold specDaysInMonth at h5
  rw [if_pos rfl, if_neg hq] at h5
  omega

theorem valid_feb29 (y : Int) (h : 1 ≤ y) (hl : is_leap_year y = true) :
    specValidTriple y 2 29 := by
  rw [is_leap_year_iff] at hl
  unfold specValidTriple specDaysInMonth
  split_ifs <;> omega

theorem valid_feb28 (y : Int) (h : 1 ≤ y) : specValidTriple y 2 28 := by
  unfold specValidTriple specDaysInMonth
  split_ifs <;> omega

theorem valid_mar1 (y : Int) (h : 1 ≤ y) : specValidTriple y 3 1 := by
  unfold specValidTriple specDaysInMonth
  split_ifs <;> omega

theorem mapper_lookup_eq (y m : Int) (h1 : 1 ≤ m) (h2 : m ≤ 12) :
    (get_days_per_month_mapper y).lookup m = some (specDaysInMonth y m) := by
  have hiff := is_leap_year_iff y
  interval_cases m <;>
    simp_all [get_days_per_month_mapper, List.lookup, specDaysInMonth]

theorem multi_lookup_eq (lo hi y m : Int) (hlo : lo ≤ y) (hhi : y ≤ hi)
    (h1 : 1 ≤ m) (h2 : m ≤ 12) :
    multi_year_mapper_lookup lo hi y m = some (specDaysInMonth y m) := by
  unfold multi_year_mapper_lookup
  rw [if_pos ⟨hlo, hhi⟩, mapper_lookup_eq y m h1 h2]

theorem date_add_years_zero : ∀ d : Date, specValid d → date_add_years d 0 = .ok d
  | ⟨yy, mm, dd⟩, h => by
    unfold date_add_years
    rw [if_neg (by omega)]
    dsimp only
    by_cases hc : mm = 2 ∧ dd = 29
    · obtain ⟨rfl, rfl⟩ := hc
      rw [if_pos ⟨rfl, rfl⟩]
      have hl := leap_of_valid_feb29 yy h
      rw [add_zero, hl, if_pos rfl]
      exact mkDate_ok_of_valid yy 2 29 h
    · rw [if_neg hc, add_zero]
      exact mkDate_ok_of_valid yy mm dd h

theorem date_add_months_zero : ∀ d : Date, specValid d → date_add_months d 0 = .ok d
  | ⟨yy, mm, dd⟩, h => by
    unfold date_add_months
    rw [if_neg (by omega)]
    have h0 : (0 : Int) / 12 = 0 := by norm_num
    rw [h0, date_add_years_zero ⟨yy, mm, dd⟩ h]
    dsimp only
    have hm1 : 1 ≤ mm := h.2.1
    have hm2 : mm ≤ 12 := h.2.2.1
    rw [if_neg (by omega)]
    by_cases h12 : mm = 12
    · rw [if_pos (by omega)]
      subst h12
      exact mkDate_ok_of_valid yy 12 dd h
    · rw [if_neg (by omega)]
      have he : (mm + 0 % 12) % 12 = mm := by omega
      rw [he]
      exact mkDate_ok_of_valid yy mm dd h

theorem date_add_days_zero : ∀ d : Date, specValid d → ∀ fuel : Nat,
    date_add_days d 0 fuel = some (.ok d)
  | ⟨yy, mm, dd⟩, h, fuel => by
    unfold date_add_days
    rw [if_neg (by omega)]
    dsimp only
    rw [multi_lookup_eq yy (yy + 0 / 366 + 1) yy mm le_rfl (by omega) h.2.1 h.2.2.1]
    have hdle : dd ≤ specDaysInMonth yy mm := h.2.2.2.2
    dsimp only
    rw [if_pos (by omega)]
    rw [add_zero]
    rw [mkDate_ok_of_valid yy mm dd h]

theorem date_subtract_years_zero : ∀ d : Date, specValid d → date_subtract_years d 0 = .ok d
  | ⟨yy, mm, dd⟩, h => by
    unfold date_subtract_years
    rw [if_neg (by omega)]
    dsimp only
    by_cases hc : mm = 2 ∧ dd = 29
    · obtain ⟨rfl, rfl⟩ := hc
      rw [if_pos ⟨rfl, rfl⟩]
      have hl := leap_of_valid_feb29 yy h
      rw [sub_zero, hl, if_pos rfl]
      exact mkDate_ok_of_valid yy 2 29 h
    · rw [if_neg hc, sub_zero]
      exact mkDate_ok_of_valid yy mm dd h

theorem date_subtract_months_zero : ∀ d : Date, specValid d → date_subtract_months d 0 = .ok d
  | ⟨yy, mm, dd⟩, h => by
    unfold date_subtract_months
    rw [if_neg (by omega)]
    have h0 : (0 : Int) / 12 = 0 := by norm_num
    rw [h0, date_subtract_years_zero ⟨yy, mm, dd⟩ h]
    dsimp only
    have hm1 : 1 ≤ mm := h.2.1
    rw [if_neg (by omega)]
    have he : mm - 0 % 12 = mm := by omega
    rw [he]
    exact mkDate_ok_of_valid yy mm dd h

theorem date_subtract_days_zero : ∀ d : Date, specValid d → ∀ fuel : Nat,
    date_subtract_days d 0 fuel = some (.ok d)
  | ⟨yy, mm, dd⟩, h, fuel => by
    unfold date_subtract_days
    rw [if_neg (by omega)]
    dsimp only
    have hd1 : 1 ≤ dd := h.2.2.2.1
    rw [if_pos (by omega)]
    rw [sub_zero]
    rw [mkDate_ok_of_valid yy mm dd h]

theorem date_add_eq_of_oks (d d1 d2 : Date) (ys ms ds : Int) (fuel : Nat)
    (h1 : date_add_years d ys = .ok d1) (h2 : date_add_months d1 ms = .ok d2) :
    date_add d ys ms ds fuel = date_add_days d2 ds fuel := by
  unfold date_add
  rw [h1]
  dsimp only
  rw [h2]

theorem date_subtract_eq_of_oks (d d1 d2 : Date) (ys ms ds : Int) (fuel : Nat)
    (h1 : date_subtract_years d ys = .ok d1) (h2 : date_subtract_months d1 ms = .ok d2) :
    date_subtract d ys ms ds fuel = date_subtract_days d2 ds fuel := by
  unfold date_subtract
  rw [h1]
  dsimp only
  rw [h2]

/-! ### Claim C3 -/

/-- C3: the claim says subtract always terminates (returning a Date or
failing immediately), but the day-shift walk of _subtract_days never exits
when the remaining day count equals the current month length: from the valid
date 2021-03-31, subtract(days=59) first consumes the 31 days of March,
leaving 28 days at February 2021 (28 days long), and then the loop repeats
forever with unchanged state, whatever the number of iterations allowed.
The source is a slip: _add_days uses days <= total for the exit test where
_subtract_days uses days < total. -/
theorem claim_C3_subtract_days_divergence :
    specValid ⟨2021, 3, 31⟩ ∧
    ∀ fuel : Nat, date_subtract ⟨2021, 3, 31⟩ 0 0 59 fuel = none := by
  refine ⟨by decide, ?_⟩
  have key : ∀ f : Nat, subtract_days_loop 2020 2021 f 28 2021 2 = none := by
    intro f
    induction f with
    | zero => rfl
    | succ g ih => exact ih
  intro fuel
  exact key fuel

/-! ### Claim C7 -/

/-- C7: month shifts preserve the day of month without clamping, so for some
valid dates a positive month count makes add/subtract raise InvalidDateError:
Date(2020,1,31).add(months=1) attempts February 31, and
Date(2021,3,31).subtract(months=1) attempts February 31. -/
theorem claim_C7_month_shift_invalid_day (fuel : Nat) :
    specValid ⟨2020, 1, 31⟩ ∧ specValid ⟨2021, 3, 31⟩ ∧
    date_add ⟨2020, 1, 31⟩ 0 1 0 fuel = some (.error ()) ∧
    date_subtract ⟨2021, 3, 31⟩ 0 1 0 fuel = some (.error ()) :=
  ⟨by decide, by decide, rfl, rfl⟩

/-! ### Claim C10 -/

/-- C10: add and subtract never mutate their receiver: for every receiver
state and all arguments, the receiver state after the method call equals the
state before (their bodies and helpers only read self and build new Dates
through the constructor). -/
theorem claim_C10_no_receiver_mutation :
    ∀ (d : Date) (years months days : Int) (fuel : Nat),
      (add_method d years months days fuel).2 = d ∧
      (subtract_method d years months days fuel).2 = d :=
  fun _ _ _ _ _ => ⟨rfl, rfl⟩

/-! ### Claim C2 -/

/-- C2 counterexample: the setters assign the field before validating, so a
failed mutation leaves the instance changed: starting from the valid date
2020-01-31, setting month to 2 raises InvalidDateError yet the stored triple
afterwards is (2020, 2, 31), not the prior valid triple. -/
theorem claim_C2_counterexample :
    specValid ⟨2020, 1, 31⟩ ∧
    (set_month ⟨2020, 1, 31⟩ 2).1 = .error () ∧
    (set_month ⟨2020, 1, 31⟩ 2).2 ≠ ⟨2020, 1, 31⟩ :=
  ⟨by decide, rfl, by decide⟩

/-- C2 amended: after any setter call the stored triple is the prior triple
with the targeted field replaced by the assigned value (even when the call
raises), and the call raises exactly when that new triple is invalid - so a
failed mutation leaves the instance observable in an invalid state rather
than restoring the prior valid triple. -/
theorem claim_C2_amended_setter_state (s : Date) (v : Int) :
    (set_year s v).2 = ⟨v, s.month, s.day⟩ ∧
    (set_month s v).2 = ⟨s.year, v, s.day⟩ ∧
    (set_day s v).2 = ⟨s.year, s.month, v⟩ ∧
    ((set_year s v).1 = .error () ↔ ¬ specValidTriple v s.month s.day) ∧
    ((set_month s v).1 = .error () ↔ ¬ specValidTriple s.year v s.day) ∧
    ((set_day s v).1 = .error () ↔ ¬ specValidTriple s.year s.month v) := by
  refine ⟨rfl, rfl, rfl, ?_, ?_, ?_⟩
  · show validate_date v s.month s.day = .error () ↔ _
    rw [validate_date_eq]
    split_ifs with h <;> simp [h]
  · show validate_date s.year v s.day = .error () ↔ _
    rw [validate_date_eq]
    split_ifs with h <;> simp [h]
  · show validate_date s.year s.month v = .error () ↔ _
    rw [validate_date_eq]
    split_ifs with h <;> simp [h]

/-! ### Claim C6 -/

/-- C6 counterexample: the claim quantifies over every non-negative n, but
subtract(years=n) from the valid date 0004-02-29 with n = 4 raises
InvalidDateError (year 0 fails validation) instead of yielding February 29
of year 0 (year 0 satisfies the leap rule, so the claim expects Feb 29). -/
theorem claim_C6_counterexample :
    specValid ⟨4, 2, 29⟩ ∧ is_leap_year (4 - 4) = true ∧
    date_subtract ⟨4, 2, 29⟩ 4 0 0 0 = some (.error ()) :=
  ⟨by decide, rfl, rfl⟩

/-- C6 amended: for every valid February-29 date and every n ≥ 0,
add(years=n) yields Feb 29 of year+n when year+n is a leap year and
otherwise March 1 of year+n; and provided n < year (so that the target year
stays positive), subtract(years=n) yields Feb 29 of year-n when year-n is a
leap year and otherwise Feb 28 of year-n. -/
theorem claim_C6_amended_feb29_shift (d : Date) (hv : specValid d) (hm : d.month = 2)
    (hd : d.day = 29) (n : Int) (hn : 0 ≤ n) (fuel : Nat) :
    date_add d n 0 0 fuel =
      some (.ok (if is_leap_year (d.year + n) then ⟨d.year + n, 2, 29⟩
                 else ⟨d.year + n, 3, 1⟩)) ∧
    (n < d.year →
      date_subtract d n 0 0 fuel =
        some (.ok (if is_leap_year (d.year - n) then ⟨d.year - n, 2, 29⟩
                   else ⟨d.year - n, 2, 28⟩))) := by
  obtain ⟨y, m, dd⟩ := d
  dsimp only at hm hd ⊢
  subst hm
  subst hd
  have hy : 1 ≤ y := hv.1
  constructor
  · rcases hL : is_leap_year (y + n) with _ | _
    · have hv1 : specValidTriple (y + n) 3 1 := valid_mar1 (y + n) (by omega)
      have e1 : date_add_years ⟨y, 2, 29⟩ n = .ok ⟨y + n, 3, 1⟩ := by
        unfold date_add_years
        rw [if_neg (by omega), if_pos ⟨rfl, rfl⟩]
        dsimp only
        rw [hL, if_neg (by simp)]
        exact mkDate_ok_of_valid _ _ _ hv1
      rw [date_add_eq_of_oks ⟨y, 2, 29⟩ ⟨y + n, 3, 1⟩ ⟨y + n, 3, 1⟩ n 0 0 fuel e1
          (date_add_months_zero ⟨y + n, 3, 1⟩ hv1)]
      rw [date_add_days_zero ⟨y + n, 3, 1⟩ hv1 fuel]
      rw [if_neg (by simp)]
    · have hv1 : specValidTriple (y + n) 2 29 := valid_feb29 (y + n) (by omega) hL
      have e1 : date_add_years ⟨y, 2, 29⟩ n = .ok ⟨y + n, 2, 29⟩ := by
        unfold date_add_years
        rw [if_neg (by omega), if_pos ⟨rfl, rfl⟩]
        dsimp only
        rw [hL, if_pos rfl]
        exact mkDate_ok_of_valid _ _ _ hv1
      rw [date_add_eq_of_oks ⟨y, 2, 29⟩ ⟨y + n, 2, 29⟩ ⟨y + n, 2, 29⟩ n 0 0 fuel e1
          (date_add_months_zero ⟨y + n, 2, 29⟩ hv1)]
      rw [date_add_days_zero ⟨y + n, 2, 29⟩ hv1 fuel]
      rw [if_pos rfl]
  · intro hny
    rcases hL : is_leap_year (y - n) with _ | _
    · have hv1 : specValidTriple (y - n) 2 28 := valid_feb28 (y - n) (by omega)
      have e1 : date_subtract_years ⟨y, 2, 29⟩ n = .ok ⟨y - n, 2, 28⟩ := by
        unfold date_subtract_years
        rw [if_neg (by omega), if_pos ⟨rfl, rfl⟩]
        dsimp only
        rw [hL, if_neg (by simp)]
        exact mkDate_ok_of_valid _ _ _ hv1
      rw [date_subtract_eq_of_oks ⟨y, 2, 29⟩ ⟨y - n, 2, 28⟩ ⟨y - n, 2, 28⟩ n 0 0 fuel e1
          (date_subtract_months_zero ⟨y - n, 2, 28⟩ hv1)]
      rw [date_subtract_days_zero ⟨y - n, 2, 28⟩ hv1 fuel]
      rw [if_neg (by simp)]
    · have hv1 : specValidTriple (y - n) 2 29 := valid_feb29 (y - n) (by omega) hL
      have e1 : date_subtract_years ⟨y, 2, 29⟩ n = .ok ⟨y - n, 2, 29⟩ := by
        unfold date_subtract_years
        rw [if_neg (by omega), if_pos ⟨rfl, rfl⟩]
        dsimp only
        rw [hL, if_pos rfl]
        exact mkDate_ok_of_valid _ _ _ hv1
      rw [date_subtract_eq_of_oks ⟨y, 2, 29⟩ ⟨y - n, 2, 29⟩ ⟨y - n, 2, 29⟩ n 0 0 fuel e1
          (date_subtract_months_zero ⟨y - n, 2, 29⟩ hv1)]
      rw [date_subtract_days_zero ⟨y - n, 2, 29⟩ hv1 fuel]
      rw [if_pos rfl]

/-- Witness for the amended C6 at Date(2000,2,29) with n = 1: add gives
2001-03-01 (2001 not leap, forward roll) and subtract gives 1999-02-28
(collapse), the concrete instances named by the claim. -/
theorem claim_C6_witness :
    date_add ⟨2000, 2, 29⟩ 1 0 0 0 = some (.ok ⟨2001, 3, 1⟩) ∧
    date_subtract ⟨2000, 2, 29⟩ 1 0 0 0 = some (.ok ⟨1999, 2, 28⟩) := by
  have h := claim_C6_amended_feb29_shift ⟨2000, 2, 29⟩ (by decide) rfl rfl 1 (by norm_num) 0
  refine ⟨h.1.trans ?_, (h.2 (by norm_num)).trans ?_⟩ <;>
    · norm_num
      rfl

/-! ### Claim C4: helper lemmas -/

theorem argminAux_lt_length (l : List Int) :
    ∀ (lowIdx : Nat) (lowVal : Int) (idx : Nat), lowIdx < idx →
      argminAux l lowIdx lowVal idx < idx + l.length := by
  induction l with
  | nil =>
    intro li lv i h
    simp only [argminAux, List.length_nil, Nat.add_zero]
    exact h
  | cons x rest ih =>
    intro li lv i h
    simp only [argminAux, List.length_cons]
    split_ifs
    · have := ih i x (i + 1) (by omega)
      omega
    · have := ih li lv (i + 1) (by omega)
      omega

theorem argmin_lt_length (l : List Int) (h : l ≠ []) : argmin l < l.length := by
  cases l with
  | nil => exact absurd rfl h
  | cons x rest =>
    simp only [argmin, List.length_cons]
    have := argminAux_lt_length rest 0 x 1 (by omega)
    omega

/-- Facts about the curated reference years: each is a multiple of 4 (hence
the step-4 loops visit every leap year), positive, and its January 1st falls
on a Saturday under the reference day-number computation. -/
theorem reference_year_property (y : Int) :
    reference_year y % 4 = 0 ∧ 1 ≤ reference_year y ∧
    (365 * (reference_year y - 1) + leapsBefore (reference_year y)) % 7 = 5 := by
  have hall : ∀ i : Nat, i < 15 →
      YEARS_HAVING_JANUARY_1ST_AS_SATURDAY.getD i 0 % 4 = 0 ∧
      1 ≤ YEARS_HAVING_JANUARY_1ST_AS_SATURDAY.getD i 0 ∧
      (365 * (YEARS_HAVING_JANUARY_1ST_AS_SATURDAY.getD i 0 - 1) +
        leapsBefore (YEARS_HAVING_JANUARY_1ST_AS_SATURDAY.getD i 0)) % 7 = 5 := by decide
  have h1 := argmin_lt_length (YEARS_HAVING_JANUARY_1ST_AS_SATURDAY.map (fun r => |y - r|))
    (by simp [YEARS_HAVING_JANUARY_1ST_AS_SATURDAY])
  have h2 : (YEARS_HAVING_JANUARY_1ST_AS_SATURDAY.map (fun r => |y - r|)).length = 15 := by
    rw [List.length_map]
    rfl
  rw [h2] at h1
  exact hall _ h1

theorem count_leaps_fwd_aux_eq (y : Int) :
    ∀ (n : Nat) (j : Int), j % 4 = 0 → 1 ≤ j → j ≤ y →
      y < j + 4 * (n : Int) → j + 4 * (n : Int) ≤ y + 4 →
      count_leaps_fwd_aux y j n = leapsBefore y - leapsBefore j := by
  intro n
  induction n with
  | zero =>
    intro j _ _ h3 h4 _
    exfalso
    omega
  | succ k ih =>
    intro j hj4 hj1 hjy hup hdown
    simp only [count_leaps_fwd_aux]
    by_cases hlast : y < j + 4
    · have hk : k = 0 := by omega
      subst hk
      have e0 : count_leaps_fwd_aux y (j + 4) 0 = 0 := rfl
      rw [e0]
      by_cases hjy2 : j = y
      · subst hjy2
        rw [if_neg (by simp)]
        omega
      · by_cases hP : j % 4 = 0 ∧ (j % 100 ≠ 0 ∨ j % 400 = 0)
        · rw [is_leap_year_true j hP, if_pos ⟨rfl, hjy2⟩]
          unfold leapsBefore
          omega
        · rw [is_leap_year_false j hP, if_neg (by simp)]
          unfold leapsBefore
          omega
    · rw [ih (j + 4) (by omega) (by omega) (by omega) (by omega) (by omega)]
      have hne : j ≠ y := by omega
      by_cases hP : j % 4 = 0 ∧ (j % 100 ≠ 0 ∨ j % 400 = 0)
      · rw [is_leap_year_true j hP, if_pos ⟨rfl, hne⟩]
        unfold leapsBefore
        omega
      · rw [is_leap_year_false j hP, if_neg (by simp)]
        unfold leapsBefore
        omega

theorem count_leaps_fwd_eq (ref y : Int) (h4 : ref % 4 = 0) (h1 : 1 ≤ ref) (hlt : ref < y) :
    count_leaps_fwd ref y = leapsBefore y - leapsBefore ref := by
  unfold count_leaps_fwd
  exact count_leaps_fwd_aux_eq y ((y + 1 - ref + 3) / 4).toNat ref h4 h1 (by omega)
    (by omega) (by omega)

theorem count_leaps_bwd_aux_eq (ref y : Int) (hy1 : 1 ≤ y) :
    ∀ (n : Nat) (j : Int), j % 4 = 0 → j < ref →
      j - 4 * (n : Int) < y → y ≤ j - 4 * (n : Int) + 4 → (1 ≤ (n : Int) → y ≤ j) →
      count_leaps_bwd_aux ref j n = leapsBefore (j + 1) - leapsBefore y := by
  intro n
  induction n with
  | zero =>
    intro j hj4 hjr h1 h2 _
    have e0 : count_leaps_bwd_aux ref j 0 = 0 := rfl
    rw [e0]
    unfold leapsBefore
    omega
  | succ k ih =>
    intro j hj4 hjr h1 h2 h3
    have hyj : y ≤ j := h3 (by omega)
    have hj1 : 1 ≤ j := le_trans hy1 hyj
    simp only [count_leaps_bwd_aux]
    rw [ih (j - 4) (by omega) (by omega) (by omega) (by omega) (by omega)]
    have hne : j ≠ ref := by omega
    by_cases hP : j % 4 = 0 ∧ (j % 100 ≠ 0 ∨ j % 400 = 0)
    · rw [is_leap_year_true j hP, if_pos ⟨rfl, hne⟩]
      unfold leapsBefore
      omega
    · rw [is_leap_year_false j hP, if_neg (by simp)]
      unfold leapsBefore
      omega

theorem count_leaps_bwd_eq (ref y : Int) (h4 : ref % 4 = 0) (hy1 : 1 ≤ y) (hlt : y < ref) :
    count_leaps_bwd ref y = leapsBefore ref - leapsBefore y := by
  unfold count_leaps_bwd
  have hpos : 1 ≤ (ref - (y - 1) + 3) / 4 := by omega
  obtain ⟨k, hk⟩ : ∃ k : Nat, ((ref - (y - 1) + 3) / 4).toNat = k + 1 :=
    ⟨((ref - (y - 1) + 3) / 4).toNat - 1, by omega⟩
  rw [hk]
  simp only [count_leaps_bwd_aux]
  rw [if_neg (by simp)]
  rw [count_leaps_bwd_aux_eq ref y hy1 k (ref - 4) (by omega) (by omega) (by omega)
    (by omega) (by omega)]
  unfold leapsBefore
  omega

/-- Correctness of the January-1st weekday engine for every positive year:
it equals the reference day-number computation modulo 7. -/
theorem jan1_dow_correct (y : Int) (hy : 1 ≤ y) :
    jan1_dow y = (365 * (y - 1) + leapsBefore y) % 7 + 1 := by
  obtain ⟨hr4, hr1, hr7⟩ := reference_year_property y
  unfold jan1_dow dow_from_away
  rcases lt_trichotomy y (reference_year y) with hlt | heq | hgt
  · rw [if_neg (by omega), if_neg (by omega)]
    rw [abs_of_nonpos (by omega), neg_sub]
    rw [count_leaps_bwd_eq (reference_year y) y hr4 hy hlt]
    split_ifs <;> omega
  · rw [if_pos heq]
    rw [← heq] at hr7
    omega
  · rw [if_neg (by omega), if_pos (by omega)]
    rw [abs_of_nonneg (by omega)]
    rw [count_leaps_fwd_eq (reference_year y) y hr4 hr1 hgt]
    split_ifs <;> omega

theorem leapsBefore_succ (y : Int) :
    leapsBefore (y + 1) =
      leapsBefore y + (if y % 4 = 0 ∧ (y % 100 ≠ 0 ∨ y % 400 = 0) then 1 else 0) := by
  unfold leapsBefore
  split_ifs <;> omega

/-- Certification of the reference day number: it advances by exactly one
along the reference day successor, so the modulo-7 weekday reference is a
genuine day-by-day count. -/
theorem rataDie_specNextDay : ∀ d : Date, specValid d →
    rataDie (specNextDay d).year (specNextDay d).month (specNextDay d).day =
      rataDie d.year d.month d.day + 1
  | ⟨y, m, dd⟩, h => by
    obtain ⟨hy, hm1, hm2, hd1, hd2⟩ := h
    unfold specNextDay
    dsimp only at hy hm1 hm2 hd1 hd2 ⊢
    split_ifs with h1 h2
    · unfold rataDie
      dsimp only
      omega
    · unfold rataDie
      dsimp only
      unfold specDaysInMonth at hd2 h1
      interval_cases m <;>
        · norm_num [cumDaysBeforeMonth] at hd2 h1 ⊢
          first
          | (split_ifs <;> omega)
          | omega
    · have hm12 : m = 12 := by omega
      subst hm12
      have he : specDaysInMonth y 12 = 31 := by
        unfold specDaysInMonth
        norm_num
      have hdd : dd = 31 := by omega
      subst hdd
      unfold rataDie
      dsimp only
      rw [leapsBefore_succ y]
      simp only [cumDaysBeforeMonth]
      split_ifs <;> omega

/-! ### Claim C4 -/

/-- C4: for every valid date (year ≥ 1), day_of_week returns exactly the
weekday name of the date under the proleptic Gregorian calendar, i.e. the
name selected by the reference day-number-modulo-7 computation; and
Date(2000,1,1).day_of_week is "Saturday". -/
theorem claim_C4_day_of_week_correct :
    (∀ y m d : Int, specValidTriple y m d → get_day_of_week y m d = refDayOfWeek y m d) ∧
    get_day_of_week 2000 1 1 = "Saturday" := by
  constructor
  · intro y m d hv
    obtain ⟨hy, hm1, hm2, hd1, hd2⟩ := hv
    have hj := jan1_dow_correct y hy
    unfold get_day_of_week refDayOfWeek
    congr 1
    simp only [get_day_of_week_number, refDayOfWeekNumber, rataDie]
    rw [hj]
    by_cases hP : y % 4 = 0 ∧ (y % 100 ≠ 0 ∨ y % 400 = 0)
    · have hL := is_leap_year_true y hP
      have e1 : (if (y % 4 = 0 ∧ (y % 100 ≠ 0 ∨ y % 400 = 0)) ∧ 2 < m then (1 : Int) else 0)
          = (if 2 < m then 1 else 0) := by
        split_ifs <;> first | rfl | tauto
      have e2 : (if is_leap_year y = true ∧ m > 2 then (1 : Int) else 0)
          = (if 2 < m then 1 else 0) := by
        rw [hL]
        simp
      rw [e1, e2]
      interval_cases m <;>
        simp only [cumDaysBeforeMonth, month_to_first_same_day] <;>
        split_ifs <;> omega
    · have hL := is_leap_year_false y hP
      have e1 : (if (y % 4 = 0 ∧ (y % 100 ≠ 0 ∨ y % 400 = 0)) ∧ 2 < m then (1 : Int) else 0)
          = 0 := by
        split_ifs <;> first | rfl | tauto
      have e2 : (if is_leap_year y = true ∧ m > 2 then (1 : Int) else 0) = 0 := by
        rw [hL]
        simp
      rw [e1, e2]
      interval_cases m <;>
        simp only [cumDaysBeforeMonth, month_to_first_same_day] <;>
        split_ifs <;> omega
  · rfl

/-- Witness for C4 at the concrete valid date 2000-01-01: the engine and the
reference agree there, and both say Saturday. -/
theorem claim_C4_witness :
    specValidTriple 2000 1 1 ∧ refDayOfWeek 2000 1 1 = "Saturday" ∧
    get_day_of_week 2000 1 1 = refDayOfWeek 2000 1 1 :=
  ⟨by decide, rfl, claim_C4_day_of_week_correct.1 2000 1 1 (by decide)⟩

end Datelib
